import Mathlib

/-!
Shallow embedding of `src/socket_impl.c` (POSIX branch): a fixed-capacity
socket handle table and the four FFI operations
`ibmoon_socket_connect`, `ibmoon_socket_send`, `ibmoon_socket_receive`,
`ibmoon_socket_close`.

Modelling conventions:
* OS socket descriptors are `Int`; `INVALID_SOCKET = -1` as in the `#else`
  (POSIX) branch of the C file.
* The global mutable state (`sockets`, `socket_count`, `next_socket_id`)
  becomes an explicit `TableState` threaded through each operation.  Since the
  array has static storage duration, C zero-initializes it: the initial state
  holds `0` in every slot.
* To reason about resource claims the state additionally records which OS
  descriptors are currently open (`live`) and which are in non-blocking mode
  (`nonblocking`); `socket(2)` conses onto `live`, `close(2)` erases, the two
  `fcntl` calls add to / erase from `nonblocking`.
* Outcomes of OS calls (`socket`, `inet_pton`, `connect`, `select`,
  `getsockopt SO_ERROR`, `send`, `recv`) are inputs, packaged in environment
  records, since they are decided by the operating system, not by this code.
* Socket identifiers are modelled as `Nat`: every identifier the code mints is
  positive (`next_socket_id` starts at 1 and increments), and for non-negative
  operands C's `%` agrees with `Nat.mod`.  (A negative caller-supplied id
  would index the C array out of bounds, i.e. undefined behaviour.)
* `errno` values use their Linux numerics; only their identity matters.
-/

set_option maxRecDepth 100000

def MAX_SOCKETS : Nat := 256

def INVALID_SOCKET : Int := -1

def ERROR_NONE : Int := 0
def ERROR_CONNECTION_REFUSED : Int := 1
def ERROR_TIMEOUT : Int := 2
def ERROR_CLOSED : Int := 3
def ERROR_INVALID_SOCKET : Int := 4
def ERROR_UNKNOWN : Int := 5

def ECONNREFUSED : Int := 111
def ETIMEDOUT : Int := 110
def ECONNRESET : Int := 104
def EPIPE : Int := 32
def EINPROGRESS : Int := 115

/-- The out-parameter triple `(*out_success, *out_value, *out_error)` every
operation writes. -/
structure SockResult where
  success : Int
  value : Int
  error : Int
deriving DecidableEq, Repr

/-- The process-wide mutable state of `socket_impl.c`, plus bookkeeping of
open OS descriptors (`live`) and descriptors in non-blocking mode
(`nonblocking`). -/
structure TableState where
  sockets : Fin MAX_SOCKETS → Int
  socket_count : Int
  next_socket_id : Nat
  live : List Int
  nonblocking : List Int

/-- Initial state: `static SOCKET sockets[MAX_SOCKETS]` is zero-initialized
(static storage duration), `socket_count = 0`, `next_socket_id = 1`, no OS
descriptor open. -/
def initState : TableState :=
  { sockets := fun _ => 0
    socket_count := 0
    next_socket_id := 1
    live := []
    nonblocking := [] }

/-- `socket_id % MAX_SOCKETS`, the slot index used by store/find/remove. -/
def slotIdx (socket_id : Nat) : Fin MAX_SOCKETS :=
  ⟨socket_id % MAX_SOCKETS, Nat.mod_lt _ (by decide)⟩

/-- The effect of `close(fd)` / `closesocket(fd)` on the OS bookkeeping: the
descriptor is no longer open and its mode flag dies with it. -/
def closeFd (fd : Int) (s : TableState) : TableState :=
  { s with live := s.live.erase fd, nonblocking := s.nonblocking.erase fd }

/-- `store_socket`: mints `next_socket_id`, stores the descriptor at
`socket_id % MAX_SOCKETS`, increments `socket_count`; returns `-1` when
`socket_count >= MAX_SOCKETS`. -/
def store_socket (sock : Int) (s : TableState) : Int × TableState :=
  if (MAX_SOCKETS : Int) ≤ s.socket_count then
    (-1, s)
  else
    let socket_id := s.next_socket_id
    ((socket_id : Int),
     { s with
        sockets := Function.update s.sockets (slotIdx socket_id) sock
        socket_count := s.socket_count + 1
        next_socket_id := socket_id + 1 })

/-- `find_socket`: returns whatever the mapped slot holds. -/
def find_socket (socket_id : Nat) (s : TableState) : Int :=
  s.sockets (slotIdx socket_id)

/-- `remove_socket`: if the mapped slot is not the sentinel, close the
descriptor it holds, reset the slot to `INVALID_SOCKET` and decrement
`socket_count`; otherwise do nothing. -/
def remove_socket (socket_id : Nat) (s : TableState) : TableState :=
  if s.sockets (slotIdx socket_id) = INVALID_SOCKET then s
  else
    let s1 := closeFd (s.sockets (slotIdx socket_id)) s
    { s1 with
        sockets := Function.update s1.sockets (slotIdx socket_id) INVALID_SOCKET
        socket_count := s1.socket_count - 1 }

/-- `get_socket_error` (POSIX branch): map `errno` to the portable error
code. -/
def get_socket_error (errno : Int) : Int :=
  if errno = ECONNREFUSED then ERROR_CONNECTION_REFUSED
  else if errno = ETIMEDOUT then ERROR_TIMEOUT
  else if errno = ECONNRESET then ERROR_CLOSED
  else if errno = EPIPE then ERROR_CLOSED
  else ERROR_UNKNOWN

/-- OS outcomes consumed by `ibmoon_socket_connect`:
`newFd` is the return of `socket(2)` (`-1` on failure);
`ptonResult` the return of `inet_pton` (`≤ 0` means malformed address);
`connectResult` the return of `connect(2)` (`-1` is `SOCKET_ERROR`);
`connectErrno` the `errno` after a failed `connect`;
`selectResult` the return of `select(2)` (`0` timeout, `< 0` error);
`soError` the `SO_ERROR` value read by `getsockopt`. -/
structure ConnectEnv where
  newFd : Int
  ptonResult : Int
  connectResult : Int
  connectErrno : Int
  selectResult : Int
  soError : Int
deriving Repr

/-- `ibmoon_socket_connect`, following the C control flow line by line. -/
def ibmoon_socket_connect (host : String) (port timeout_ms : Int)
    (env : ConnectEnv) (s : TableState) : SockResult × TableState :=
  if env.newFd = INVALID_SOCKET then
    (⟨0, 0, ERROR_UNKNOWN⟩, s)
  else
    -- socket() succeeded; fcntl switches the new descriptor to non-blocking
    let s1 : TableState :=
      { s with live := env.newFd :: s.live
               nonblocking := env.newFd :: s.nonblocking }
    if env.ptonResult ≤ 0 then
      (⟨0, 0, ERROR_UNKNOWN⟩, closeFd env.newFd s1)
    else
      -- shared tail: restore blocking mode, store the socket, report
      let finish : TableState → SockResult × TableState := fun st =>
        let st1 := { st with nonblocking := st.nonblocking.erase env.newFd }
        let r := store_socket env.newFd st1
        if r.1 < 0 then
          (⟨0, 0, ERROR_UNKNOWN⟩, closeFd env.newFd r.2)
        else
          (⟨1, r.1, ERROR_NONE⟩, r.2)
      if env.connectResult = -1 then
        if env.connectErrno ≠ EINPROGRESS then
          (⟨0, 0, get_socket_error env.connectErrno⟩, closeFd env.newFd s1)
        else if 0 < timeout_ms then
          if env.selectResult ≤ 0 then
            (⟨0, 0, if env.selectResult = 0 then ERROR_TIMEOUT else ERROR_UNKNOWN⟩,
             closeFd env.newFd s1)
          else if env.soError ≠ 0 then
            (⟨0, 0, ERROR_CONNECTION_REFUSED⟩, closeFd env.newFd s1)
          else
            finish s1
        else
          finish s1
      else
        finish s1

/-- OS outcome consumed by `ibmoon_socket_send`: the return of `send(2)`
(`-1` is `SOCKET_ERROR`, otherwise bytes sent) and the `errno` after a
failure. -/
structure SendEnv where
  sendResult : Int
  sendErrno : Int
deriving Repr

/-- `ibmoon_socket_send`. -/
def ibmoon_socket_send (socket_id : Nat) (data : List Nat) (length : Int)
    (env : SendEnv) (s : TableState) : SockResult × TableState :=
  if find_socket socket_id s = INVALID_SOCKET then
    (⟨0, 0, ERROR_INVALID_SOCKET⟩, s)
  else if env.sendResult = -1 then
    (⟨0, 0, get_socket_error env.sendErrno⟩, s)
  else
    (⟨1, env.sendResult, ERROR_NONE⟩, s)

/-- OS outcome consumed by `ibmoon_socket_receive`: the return of `recv(2)`
(`-1` is `SOCKET_ERROR`, `0` orderly peer shutdown, otherwise bytes read)
and the `errno` after a failure. -/
structure RecvEnv where
  recvResult : Int
  recvErrno : Int
deriving Repr

/-- `ibmoon_socket_receive`.  The `SO_RCVTIMEO` option set for
`timeout_ms > 0` only influences how the OS resolves `recv`, which the
environment already abstracts, so it leaves the modelled state unchanged. -/
def ibmoon_socket_receive (socket_id : Nat) (buffer_len timeout_ms : Int)
    (env : RecvEnv) (s : TableState) : SockResult × TableState :=
  if find_socket socket_id s = INVALID_SOCKET then
    (⟨0, 0, ERROR_INVALID_SOCKET⟩, s)
  else if env.recvResult = -1 then
    (⟨0, 0, get_socket_error env.recvErrno⟩, s)
  else if env.recvResult = 0 then
    (⟨0, 0, ERROR_CLOSED⟩, s)
  else
    (⟨1, env.recvResult, ERROR_NONE⟩, s)

/-- `ibmoon_socket_close`. -/
def ibmoon_socket_close (socket_id : Nat) (s : TableState) :
    SockResult × TableState :=
  if find_socket socket_id s = INVALID_SOCKET then
    (⟨0, 0, ERROR_INVALID_SOCKET⟩, s)
  else
    (⟨1, 0, ERROR_NONE⟩, remove_socket socket_id s)

/-- Number of slots not holding the sentinel. -/
def occupiedCount (s : TableState) : Nat :=
  (Finset.univ.filter fun i : Fin MAX_SOCKETS => s.sockets i ≠ INVALID_SOCKET).card

/-- The spec's handle-table invariant: an unoccupied slot holds the sentinel,
an occupied slot holds a live (open) OS descriptor. -/
def tableInv (s : TableState) : Prop :=
  ∀ i : Fin MAX_SOCKETS,
    s.sockets i = INVALID_SOCKET ∨ s.sockets i ∈ s.live

/-- The well-formedness of a result triple claimed by the spec: success with
`None`, or failure with one of the five non-`None` codes. -/
def goodResult (r : SockResult) : Prop :=
  (r.success = 1 ∧ r.error = ERROR_NONE) ∨
    (r.success = 0 ∧
      (r.error = ERROR_CONNECTION_REFUSED ∨ r.error = ERROR_TIMEOUT ∨
       r.error = ERROR_CLOSED ∨ r.error = ERROR_INVALID_SOCKET ∨
       r.error = ERROR_UNKNOWN))

/-- A table whose every slot holds the sentinel: the state the spec's
invariant describes for "no allocation yet". -/
def allInvalidState : TableState :=
  { sockets := fun _ => INVALID_SOCKET
    socket_count := 0
    next_socket_id := 1
    live := []
    nonblocking := [] }

/-- One live socket: descriptor 7 registered under identifier 1. -/
def oneSockState : TableState :=
  { sockets := Function.update (fun _ => INVALID_SOCKET) (slotIdx 1) 7
    socket_count := 1
    next_socket_id := 2
    live := [7]
    nonblocking := [] }

/-- Collision setup: identifier 1 (slot 1) holds the live descriptor 9 and
the next identifier to be minted is 257, which maps to the same slot. -/
def collState : TableState :=
  { sockets := Function.update (fun _ => INVALID_SOCKET) (slotIdx 1) 9
    socket_count := 1
    next_socket_id := 257
    live := [9]
    nonblocking := [] }

/-- A table reporting itself full: `socket_count` at capacity. -/
def fullState : TableState :=
  { sockets := fun _ => INVALID_SOCKET
    socket_count := 256
    next_socket_id := 257
    live := []
    nonblocking := [] }

theorem get_socket_error_cases (errno : Int) :
    get_socket_error errno = ERROR_CONNECTION_REFUSED ∨
    get_socket_error errno = ERROR_TIMEOUT ∨
    get_socket_error errno = ERROR_CLOSED ∨
    get_socket_error errno = ERROR_UNKNOWN := by
  unfold get_socket_error
  split_ifs <;> simp

theorem goodResult_mapped (e : Int) : goodResult ⟨0, 0, get_socket_error e⟩ := by
  rcases get_socket_error_cases e with h | h | h | h <;>
    exact Or.inr ⟨rfl, by simp [h]⟩

/-- C3: `store_socket` and `find_socket` both map an identifier to the slot
`identifier % MAX_SOCKETS`; identifiers that differ by a multiple of
`MAX_SOCKETS = 256` map to the same slot. -/
theorem store_find_modulo (s : TableState) (sock : Int) (id k : Nat)
    (hroom : s.socket_count < (MAX_SOCKETS : Int)) :
    find_socket id s = s.sockets (slotIdx id) ∧
    (store_socket sock s).1 = (s.next_socket_id : Int) ∧
    (store_socket sock s).2.sockets (slotIdx s.next_socket_id) = sock ∧
    slotIdx (id + MAX_SOCKETS * k) = slotIdx id := by
  refine ⟨rfl, ?_, ?_, ?_⟩
  · simp [store_socket, not_le.mpr hroom]
  · simp [store_socket, not_le.mpr hroom]
  · exact Fin.ext (Nat.add_mul_mod_self_left id MAX_SOCKETS k)

theorem store_find_modulo_witness :
    initState.socket_count < (MAX_SOCKETS : Int) ∧
    (find_socket 5 initState = initState.sockets (slotIdx 5) ∧
     (store_socket 3 initState).1 = (initState.next_socket_id : Int) ∧
     (store_socket 3 initState).2.sockets (slotIdx initState.next_socket_id) = 3 ∧
     slotIdx (5 + MAX_SOCKETS * 2) = slotIdx 5) :=
  ⟨by decide, store_find_modulo initState 3 5 2 (by decide)⟩

/-- C1 counterexample: in the initial state no connect has ever run, so
identifier 5 was never returned by a successful connect; yet `send` does not
return `InvalidSocket` for it, because the zero-initialized slot holds `0`
rather than the sentinel, so the stale descriptor `0` is used (here the OS
send reports 4 bytes written and the call even succeeds). -/
theorem send_never_connected_id_not_rejected :
    ((ibmoon_socket_send 5 [] 4 ⟨4, 0⟩ initState).1 =
        ⟨0, 0, ERROR_INVALID_SOCKET⟩) = False :=
  eq_false (by decide)

/-- C1 amended: send, receive and close return `{false, 0, InvalidSocket}`
exactly for an identifier whose mapped slot currently holds the sentinel —
in particular for a closed identifier whose slot has not been re-occupied.
A never-returned identifier whose zero-initialized slot still holds `0`, or
whose slot is occupied by a colliding live identifier, is not rejected. -/
theorem ops_reject_sentinel_slot (id : Nat) (data : List Nat)
    (length buffer_len timeout_ms : Int) (senv : SendEnv) (renv : RecvEnv)
    (s : TableState) (h : find_socket id s = INVALID_SOCKET) :
    ibmoon_socket_send id data length senv s =
      (⟨0, 0, ERROR_INVALID_SOCKET⟩, s) ∧
    ibmoon_socket_receive id buffer_len timeout_ms renv s =
      (⟨0, 0, ERROR_INVALID_SOCKET⟩, s) ∧
    ibmoon_socket_close id s = (⟨0, 0, ERROR_INVALID_SOCKET⟩, s) := by
  refine ⟨?_, ?_, ?_⟩ <;>
    simp [ibmoon_socket_send, ibmoon_socket_receive, ibmoon_socket_close, h]

theorem ops_reject_sentinel_slot_witness :
    find_socket 5 allInvalidState = INVALID_SOCKET ∧
    (ibmoon_socket_send 5 [] 4 ⟨4, 0⟩ allInvalidState =
       (⟨0, 0, ERROR_INVALID_SOCKET⟩, allInvalidState) ∧
     ibmoon_socket_receive 5 64 0 ⟨4, 0⟩ allInvalidState =
       (⟨0, 0, ERROR_INVALID_SOCKET⟩, allInvalidState) ∧
     ibmoon_socket_close 5 allInvalidState =
       (⟨0, 0, ERROR_INVALID_SOCKET⟩, allInvalidState)) :=
  ⟨by decide, ops_reject_sentinel_slot 5 [] 4 64 0 ⟨4, 0⟩ ⟨4, 0⟩
      allInvalidState (by decide)⟩

/-- C2: the invariant fails already in the initial state.  The C array has
static storage duration, so it is zero-initialized: every slot holds `0`,
which is neither the sentinel `INVALID_SOCKET = -1` nor a live OS
descriptor (no descriptor is open before the first connect). -/
theorem initState_breaks_sentinel_invariant :
    (∃ i : Fin MAX_SOCKETS,
        initState.sockets i = 0 ∧
        initState.sockets i ≠ INVALID_SOCKET ∧
        initState.sockets i ∉ initState.live) ∧
    tableInv initState = False := by
  constructor
  · exact ⟨slotIdx 0, by decide, by decide, by decide⟩
  · refine eq_false fun h => ?_
    rcases h (slotIdx 0) with h0 | h0
    · exact absurd h0 (by decide)
    · exact absurd h0 (by decide)

/-- C7: closing an identifier whose slot is occupied releases the slot
(descriptor closed, slot reset to the sentinel, `socket_count` decremented)
and returns `{true, 0, None}`; a second close of the same identifier, with
no intervening allocation, returns `{false, 0, InvalidSocket}`. -/
theorem close_releases_then_rejects (id : Nat) (s : TableState)
    (h : find_socket id s ≠ INVALID_SOCKET) :
    (ibmoon_socket_close id s).1 = ⟨1, 0, ERROR_NONE⟩ ∧
    (ibmoon_socket_close id s).2.sockets (slotIdx id) = INVALID_SOCKET ∧
    (ibmoon_socket_close id s).2.socket_count = s.socket_count - 1 ∧
    (ibmoon_socket_close id s).2.live = s.live.erase (find_socket id s) ∧
    (ibmoon_socket_close id (ibmoon_socket_close id s).2).1 =
      ⟨0, 0, ERROR_INVALID_SOCKET⟩ := by
  have h' : ¬ s.sockets (slotIdx id) = INVALID_SOCKET := h
  simp [ibmoon_socket_close, remove_socket, closeFd, find_socket, h',
    Function.update_same]

theorem close_releases_then_rejects_witness :
    find_socket 1 oneSockState ≠ INVALID_SOCKET ∧
    ((ibmoon_socket_close 1 oneSockState).1 = ⟨1, 0, ERROR_NONE⟩ ∧
     (ibmoon_socket_close 1 oneSockState).2.sockets (slotIdx 1) =
       INVALID_SOCKET ∧
     (ibmoon_socket_close 1 oneSockState).2.socket_count =
       oneSockState.socket_count - 1 ∧
     (ibmoon_socket_close 1 oneSockState).2.live =
       oneSockState.live.erase (find_socket 1 oneSockState) ∧
     (ibmoon_socket_close 1 (ibmoon_socket_close 1 oneSockState).2).1 =
       ⟨0, 0, ERROR_INVALID_SOCKET⟩) :=
  ⟨by decide, close_releases_then_rejects 1 oneSockState (by decide)⟩

/-- C8: a receive on a valid identifier for which the OS read reports zero
bytes (orderly peer shutdown) returns `{false, 0, Closed}` and leaves the
table untouched. -/
theorem receive_zero_bytes_closed (id : Nat) (buffer_len timeout_ms : Int)
    (env : RecvEnv) (s : TableState)
    (hvalid : find_socket id s ≠ INVALID_SOCKET)
    (hzero : env.recvResult = 0) :
    ibmoon_socket_receive id buffer_len timeout_ms env s =
      (⟨0, 0, ERROR_CLOSED⟩, s) := by
  simp [ibmoon_socket_receive, hvalid, hzero]

theorem receive_zero_bytes_closed_witness :
    find_socket 1 oneSockState ≠ INVALID_SOCKET ∧
    RecvEnv.recvResult ⟨0, 0⟩ = 0 ∧
    ibmoon_socket_receive 1 64 1000 ⟨0, 0⟩ oneSockState =
      (⟨0, 0, ERROR_CLOSED⟩, oneSockState) :=
  ⟨by decide, rfl,
    receive_zero_bytes_closed 1 64 1000 ⟨0, 0⟩ oneSockState (by decide) rfl⟩

/-- C4: a connect with `timeout_ms > 0` whose OS connect reports
in-progress: if `select` expires with no readiness the socket is closed and
the result is `{false, 0, Timeout}`; if readiness is signaled and `SO_ERROR`
is non-zero the socket is closed and the result is
`{false, 0, ConnectionRefused}`. -/
theorem connect_timeout_and_refused (host : String) (port timeout_ms : Int)
    (env : ConnectEnv) (s : TableState)
    (hfd : env.newFd ≠ INVALID_SOCKET) (hpton : 0 < env.ptonResult)
    (hconn : env.connectResult = -1) (hprog : env.connectErrno = EINPROGRESS)
    (ht : 0 < timeout_ms) (hfresh : env.newFd ∉ s.live) :
    (env.selectResult = 0 →
      (ibmoon_socket_connect host port timeout_ms env s).1 =
        ⟨0, 0, ERROR_TIMEOUT⟩ ∧
      (ibmoon_socket_connect host port timeout_ms env s).2.live = s.live ∧
      env.newFd ∉ (ibmoon_socket_connect host port timeout_ms env s).2.live) ∧
    (0 < env.selectResult → env.soError ≠ 0 →
      (ibmoon_socket_connect host port timeout_ms env s).1 =
        ⟨0, 0, ERROR_CONNECTION_REFUSED⟩ ∧
      (ibmoon_socket_connect host port timeout_ms env s).2.live = s.live ∧
      env.newFd ∉ (ibmoon_socket_connect host port timeout_ms env s).2.live) := by
  constructor
  · intro hsel
    simp [ibmoon_socket_connect, closeFd, hfd, not_le.mpr hpton, hconn, hprog,
      ht, hsel, hfresh]
  · intro hsel herr
    simp [ibmoon_socket_connect, closeFd, hfd, not_le.mpr hpton, hconn, hprog,
      ht, not_le.mpr hsel, herr, hfresh]

theorem connect_timeout_and_refused_witness :
    (ConnectEnv.newFd ⟨3, 1, -1, EINPROGRESS, 0, 0⟩ ≠ INVALID_SOCKET ∧
     0 < ConnectEnv.ptonResult ⟨3, 1, -1, EINPROGRESS, 0, 0⟩ ∧
     ConnectEnv.connectResult ⟨3, 1, -1, EINPROGRESS, 0, 0⟩ = -1 ∧
     ConnectEnv.connectErrno ⟨3, 1, -1, EINPROGRESS, 0, 0⟩ = EINPROGRESS ∧
     (0 : Int) < 500 ∧
     ConnectEnv.newFd ⟨3, 1, -1, EINPROGRESS, 0, 0⟩ ∉ initState.live) ∧
    ((ConnectEnv.selectResult ⟨3, 1, -1, EINPROGRESS, 0, 0⟩ = 0 →
      (ibmoon_socket_connect "127.0.0.1" 80 500 ⟨3, 1, -1, EINPROGRESS, 0, 0⟩
          initState).1 = ⟨0, 0, ERROR_TIMEOUT⟩ ∧
      (ibmoon_socket_connect "127.0.0.1" 80 500 ⟨3, 1, -1, EINPROGRESS, 0, 0⟩
          initState).2.live = initState.live ∧
      ConnectEnv.newFd ⟨3, 1, -1, EINPROGRESS, 0, 0⟩ ∉
        (ibmoon_socket_connect "127.0.0.1" 80 500 ⟨3, 1, -1, EINPROGRESS, 0, 0⟩
          initState).2.live) ∧
     (0 < ConnectEnv.selectResult ⟨3, 1, -1, EINPROGRESS, 0, 0⟩ →
      ConnectEnv.soError ⟨3, 1, -1, EINPROGRESS, 0, 0⟩ ≠ 0 →
      (ibmoon_socket_connect "127.0.0.1" 80 500 ⟨3, 1, -1, EINPROGRESS, 0, 0⟩
          initState).1 = ⟨0, 0, ERROR_CONNECTION_REFUSED⟩ ∧
      (ibmoon_socket_connect "127.0.0.1" 80 500 ⟨3, 1, -1, EINPROGRESS, 0, 0⟩
          initState).2.live = initState.live ∧
      ConnectEnv.newFd ⟨3, 1, -1, EINPROGRESS, 0, 0⟩ ∉
        (ibmoon_socket_connect "127.0.0.1" 80 500 ⟨3, 1, -1, EINPROGRESS, 0, 0⟩
          initState).2.live)) :=
  ⟨⟨by decide, by decide, by decide, by decide, by decide, by decide⟩,
    connect_timeout_and_refused "127.0.0.1" 80 500 ⟨3, 1, -1, EINPROGRESS, 0, 0⟩
      initState (by decide) (by decide) (by decide) (by decide) (by decide)
      (by decide)⟩

/-- C5: a connect with `timeout_ms = 0` whose OS connect reports in-progress
performs no readiness wait and no pending-error check (the outcome does not
depend on the `select` or `SO_ERROR` values), restores blocking mode on the
in-progress socket, registers it, and returns `{true, identifier, None}`
when registration does not fail. -/
theorem connect_zero_timeout_accepts_in_progress (host : String) (port : Int)
    (env : ConnectEnv) (s : TableState)
    (hfd : env.newFd ≠ INVALID_SOCKET) (hpton : 0 < env.ptonResult)
    (hconn : env.connectResult = -1) (hprog : env.connectErrno = EINPROGRESS)
    (hroom : s.socket_count < (MAX_SOCKETS : Int))
    (hnb : env.newFd ∉ s.nonblocking) :
    (∀ sel so,
      ibmoon_socket_connect host port 0
          { env with selectResult := sel, soError := so } s =
        ibmoon_socket_connect host port 0 env s) ∧
    (ibmoon_socket_connect host port 0 env s).1 =
      ⟨1, (s.next_socket_id : Int), ERROR_NONE⟩ ∧
    find_socket s.next_socket_id
        (ibmoon_socket_connect host port 0 env s).2 = env.newFd ∧
    env.newFd ∉ (ibmoon_socket_connect host port 0 env s).2.nonblocking := by
  have hpos : ¬((s.next_socket_id : Int) < 0) :=
    not_lt.mpr (Int.natCast_nonneg _)
  refine ⟨fun sel so => ?_, ?_, ?_, ?_⟩ <;>
    simp [ibmoon_socket_connect, store_socket, find_socket, closeFd, hfd,
      not_le.mpr hpton, hconn, hprog, not_le.mpr hroom, hpos, hnb,
      Function.update_same]

theorem connect_zero_timeout_accepts_in_progress_witness :
    (ConnectEnv.newFd ⟨3, 1, -1, EINPROGRESS, 7, 9⟩ ≠ INVALID_SOCKET ∧
     0 < ConnectEnv.ptonResult ⟨3, 1, -1, EINPROGRESS, 7, 9⟩ ∧
     ConnectEnv.connectResult ⟨3, 1, -1, EINPROGRESS, 7, 9⟩ = -1 ∧
     ConnectEnv.connectErrno ⟨3, 1, -1, EINPROGRESS, 7, 9⟩ = EINPROGRESS ∧
     initState.socket_count < (MAX_SOCKETS : Int) ∧
     ConnectEnv.newFd ⟨3, 1, -1, EINPROGRESS, 7, 9⟩ ∉ initState.nonblocking) ∧
    ((∀ sel so,
       ibmoon_socket_connect "127.0.0.1" 80 0
           { ConnectEnv.mk 3 1 (-1) EINPROGRESS 7 9 with
              selectResult := sel, soError := so } initState =
         ibmoon_socket_connect "127.0.0.1" 80 0 ⟨3, 1, -1, EINPROGRESS, 7, 9⟩
           initState) ∧
     (ibmoon_socket_connect "127.0.0.1" 80 0 ⟨3, 1, -1, EINPROGRESS, 7, 9⟩
         initState).1 = ⟨1, (initState.next_socket_id : Int), ERROR_NONE⟩ ∧
     find_socket initState.next_socket_id
         (ibmoon_socket_connect "127.0.0.1" 80 0 ⟨3, 1, -1, EINPROGRESS, 7, 9⟩
           initState).2 = ConnectEnv.newFd ⟨3, 1, -1, EINPROGRESS, 7, 9⟩ ∧
     ConnectEnv.newFd ⟨3, 1, -1, EINPROGRESS, 7, 9⟩ ∉
       (ibmoon_socket_connect "127.0.0.1" 80 0 ⟨3, 1, -1, EINPROGRESS, 7, 9⟩
         initState).2.nonblocking) :=
  ⟨⟨by decide, by decide, by decide, by decide, by decide, by decide⟩,
    connect_zero_timeout_accepts_in_progress "127.0.0.1" 80
      ⟨3, 1, -1, EINPROGRESS, 7, 9⟩ initState (by decide) (by decide)
      (by decide) (by decide) (by decide) (by decide)⟩

/-- C6: when connect reaches registration (here: the OS connect completed
immediately) but the table is full, allocation fails, the freshly created OS
socket is closed rather than leaked, and the result is
`{false, 0, Unknown}`; the table itself is unchanged. -/
theorem connect_table_full_not_leaked (host : String) (port timeout_ms : Int)
    (env : ConnectEnv) (s : TableState)
    (hfd : env.newFd ≠ INVALID_SOCKET) (hpton : 0 < env.ptonResult)
    (hconn : env.connectResult ≠ -1)
    (hfull : (MAX_SOCKETS : Int) ≤ s.socket_count)
    (hfresh : env.newFd ∉ s.live) :
    (ibmoon_socket_connect host port timeout_ms env s).1 =
      ⟨0, 0, ERROR_UNKNOWN⟩ ∧
    (ibmoon_socket_connect host port timeout_ms env s).2.live = s.live ∧
    env.newFd ∉ (ibmoon_socket_connect host port timeout_ms env s).2.live ∧
    (ibmoon_socket_connect host port timeout_ms env s).2.sockets = s.sockets ∧
    (ibmoon_socket_connect host port timeout_ms env s).2.socket_count =
      s.socket_count := by
  refine ⟨?_, ?_, ?_, ?_, ?_⟩ <;>
    simp [ibmoon_socket_connect, store_socket, closeFd, hfd,
      not_le.mpr hpton, hconn, hfull, hfresh]

theorem connect_table_full_not_leaked_witness :
    (ConnectEnv.newFd ⟨3, 1, 0, 0, 0, 0⟩ ≠ INVALID_SOCKET ∧
     0 < ConnectEnv.ptonResult ⟨3, 1, 0, 0, 0, 0⟩ ∧
     ConnectEnv.connectResult ⟨3, 1, 0, 0, 0, 0⟩ ≠ -1 ∧
     (MAX_SOCKETS : Int) ≤ fullState.socket_count ∧
     ConnectEnv.newFd ⟨3, 1, 0, 0, 0, 0⟩ ∉ fullState.live) ∧
    ((ibmoon_socket_connect "127.0.0.1" 80 500 ⟨3, 1, 0, 0, 0, 0⟩
        fullState).1 = ⟨0, 0, ERROR_UNKNOWN⟩ ∧
     (ibmoon_socket_connect "127.0.0.1" 80 500 ⟨3, 1, 0, 0, 0, 0⟩
        fullState).2.live = fullState.live ∧
     ConnectEnv.newFd ⟨3, 1, 0, 0, 0, 0⟩ ∉
       (ibmoon_socket_connect "127.0.0.1" 80 500 ⟨3, 1, 0, 0, 0, 0⟩
         fullState).2.live ∧
     (ibmoon_socket_connect "127.0.0.1" 80 500 ⟨3, 1, 0, 0, 0, 0⟩
        fullState).2.sockets = fullState.sockets ∧
     (ibmoon_socket_connect "127.0.0.1" 80 500 ⟨3, 1, 0, 0, 0, 0⟩
        fullState).2.socket_count = fullState.socket_count) :=
  ⟨⟨by decide, by decide, by decide, by decide, by decide⟩,
    connect_table_full_not_leaked "127.0.0.1" 80 500 ⟨3, 1, 0, 0, 0, 0⟩
      fullState (by decide) (by decide) (by decide) (by decide) (by decide)⟩

/-- C9: every call to any of the four operations yields a triple with
`success = 1 ∧ error = None` or `success = 0` and one of the five non-`None`
codes; the OS-error mapper never yields `None`. -/
theorem results_wellformed (host : String)
    (port timeout_ms length buffer_len rtimeout errno : Int)
    (data : List Nat) (id : Nat) (cenv : ConnectEnv) (senv : SendEnv)
    (renv : RecvEnv) (s : TableState) :
    goodResult (ibmoon_socket_connect host port timeout_ms cenv s).1 ∧
    goodResult (ibmoon_socket_send id data length senv s).1 ∧
    goodResult (ibmoon_socket_receive id buffer_len rtimeout renv s).1 ∧
    goodResult (ibmoon_socket_close id s).1 ∧
    (get_socket_error errno = ERROR_NONE) = False := by
  refine ⟨?_, ?_, ?_, ?_, ?_⟩
  · unfold ibmoon_socket_connect
    dsimp only
    split_ifs <;> dsimp only <;>
      first
        | exact goodResult_mapped _
        | exact Or.inl ⟨rfl, rfl⟩
        | exact Or.inr ⟨rfl, by decide⟩
  · unfold ibmoon_socket_send
    split_ifs <;> dsimp only <;>
      first
        | exact goodResult_mapped _
        | exact Or.inl ⟨rfl, rfl⟩
        | exact Or.inr ⟨rfl, by decide⟩
  · unfold ibmoon_socket_receive
    split_ifs <;> dsimp only <;>
      first
        | exact goodResult_mapped _
        | exact Or.inl ⟨rfl, rfl⟩
        | exact Or.inr ⟨rfl, by decide⟩
  · unfold ibmoon_socket_close
    split_ifs <;> dsimp only <;>
      first
        | exact Or.inl ⟨rfl, rfl⟩
        | exact Or.inr ⟨rfl, by decide⟩
  · refine eq_false fun hc => ?_
    rcases get_socket_error_cases errno with h | h | h | h <;>
      rw [h] at hc <;> exact absurd hc (by decide)

/-- C10: when `store_socket` mints an identifier whose slot is already
occupied by a live descriptor, it overwrites the slot without closing the
previous descriptor and still increments `socket_count`: the old descriptor
stays open (leaked) and `socket_count` no longer equals the number of
occupied slots. -/
theorem store_collision_overwrites_and_leaks (sock : Int) (s : TableState)
    (hroom : s.socket_count < (MAX_SOCKETS : Int))
    (hocc : s.sockets (slotIdx s.next_socket_id) ≠ INVALID_SOCKET)
    (hlive : s.sockets (slotIdx s.next_socket_id) ∈ s.live)
    (hsock : sock ≠ INVALID_SOCKET)
    (hcount : s.socket_count = (occupiedCount s : Int)) :
    (store_socket sock s).1 = (s.next_socket_id : Int) ∧
    (store_socket sock s).2.sockets (slotIdx s.next_socket_id) = sock ∧
    s.sockets (slotIdx s.next_socket_id) ∈ (store_socket sock s).2.live ∧
    (store_socket sock s).2.socket_count = s.socket_count + 1 ∧
    occupiedCount (store_socket sock s).2 = occupiedCount s ∧
    (store_socket sock s).2.socket_count ≠
      (occupiedCount (store_socket sock s).2 : Int) := by
  have hnle : ¬((MAX_SOCKETS : Int) ≤ s.socket_count) := not_le.mpr hroom
  have hsockets : (store_socket sock s).2.sockets
      = Function.update s.sockets (slotIdx s.next_socket_id) sock := by
    simp [store_socket, hnle]
  have hcnt : (store_socket sock s).2.socket_count = s.socket_count + 1 := by
    simp [store_socket, hnle]
  have hocc2 : occupiedCount (store_socket sock s).2 = occupiedCount s := by
    unfold occupiedCount
    rw [hsockets]
    congr 1
    apply Finset.filter_congr
    intro i _
    by_cases hi : i = slotIdx s.next_socket_id
    · subst hi
      simp [Function.update_same, hsock, hocc]
    · simp [Function.update_noteq hi]
  refine ⟨?_, ?_, ?_, hcnt, hocc2, ?_⟩
  · simp [store_socket, hnle]
  · rw [hsockets]
    exact Function.update_same _ _ _
  · simp [store_socket, hnle, hlive]
  · rw [hcnt, hocc2, ← hcount]
    omega

theorem store_collision_overwrites_and_leaks_witness :
    (collState.socket_count < (MAX_SOCKETS : Int) ∧
     collState.sockets (slotIdx collState.next_socket_id) ≠ INVALID_SOCKET ∧
     collState.sockets (slotIdx collState.next_socket_id) ∈ collState.live ∧
     (11 : Int) ≠ INVALID_SOCKET ∧
     collState.socket_count = (occupiedCount collState : Int)) ∧
    ((store_socket 11 collState).1 = (collState.next_socket_id : Int) ∧
     (store_socket 11 collState).2.sockets (slotIdx collState.next_socket_id) =
       11 ∧
     collState.sockets (slotIdx collState.next_socket_id) ∈
       (store_socket 11 collState).2.live ∧
     (store_socket 11 collState).2.socket_count =
       collState.socket_count + 1 ∧
     occupiedCount (store_socket 11 collState).2 = occupiedCount collState ∧
     (store_socket 11 collState).2.socket_count ≠
       (occupiedCount (store_socket 11 collState).2 : Int)) :=
  ⟨⟨by decide, by decide, by decide, by decide, by decide⟩,
    store_collision_overwrites_and_leaks 11 collState (by decide) (by decide)
      (by decide) (by decide) (by decide)⟩
